import Mathlib

/-!
Shallow embedding of the display core of `src/mainApp.py` (shopifyPi):
the screen builder (`_create_order_screens`), the display-session state
machine driven by the render loop (`display_loop`, `set_new_order`), and
the alert animation (`show_lightning_animation`).

Timestamps are modelled as `Int` (seconds); one render-loop iteration is
one application of `display_tick` at an externally supplied time `now`.
-/

namespace ShopifyPi

/-- Order payload fields read by `DisplayManager._create_order_screens`. -/
structure LineItem where
  name : String
  quantity : Nat
deriving DecidableEq

/-- Customer sub-object of the order payload. -/
structure Customer where
  first_name : String
deriving DecidableEq

/-- The order payload delivered by the webhook. -/
structure Order where
  name : String
  total_price : String
  currency : String
  customer : Customer
  line_items : List LineItem
deriving DecidableEq

/-- The three display states (`CELEBRATION = 1`, `ORDER_INFO = 2`, `IDLE = 3`). -/
inductive DisplayState where
  | CELEBRATION
  | ORDER_INFO
  | IDLE
deriving DecidableEq

/-- The mutable `DisplayManager` fields that make up the display session. -/
structure DisplaySession where
  display_state : DisplayState
  state_start_time : Int
  scroll_position : Nat
  screens : List String
  screen_index : Nat
  cycles_remaining : Int
  order_data : Option Order
deriving DecidableEq

/-- `DisplayManager.__init__`: idle, empty screens; `t0` is the construction time. -/
def init_session (t0 : Int) : DisplaySession :=
  { display_state := DisplayState.IDLE
    state_start_time := t0
    scroll_position := 0
    screens := []
    screen_index := 0
    cycles_remaining := 0
    order_data := none }

/-- One step of the grouping loop in `_create_order_screens`
(`temp.append(line); if len(temp) == lines_per_screen: screens.append(...)`),
with `lines_per_screen = 2`.  The accumulator is `(screens, temp)`. -/
def group_step (acc : List String × List String) (line : String) :
    List String × List String :=
  let temp := acc.2 ++ [line]
  if temp.length = 2 then (acc.1 ++ [String.intercalate "\n" temp], [])
  else (acc.1, temp)

/-- The grouping loop of `_create_order_screens`: fold over the entries,
then flush the non-empty remainder (`if temp: screens.append(...)`). -/
def group_screens (screen_data : List String) : List String :=
  let acc := screen_data.foldl group_step ([], [])
  match acc.2 with
  | [] => acc.1
  | temp => acc.1 ++ [String.intercalate "\n" temp]

/-- `DisplayManager._create_order_screens`. -/
def create_order_screens (data : Order) : List String :=
  let total_items := (data.line_items.map (fun item => item.quantity)).sum
  let screen_data : List String :=
    ["Order " ++ data.name,
     "Total: " ++ data.total_price ++ " " ++ data.currency,
     "Items: " ++ toString total_items,
     "Customer:\n" ++ data.customer.first_name]
    ++ data.line_items.map (fun item => "Product:\n" ++ item.name)
  group_screens screen_data

/-- Entry list as worded in §4.1 of the spec (reference side of C1). -/
def order_entries (o : Order) : List String :=
  ["Order " ++ o.name,
   "Total: " ++ o.total_price ++ " " ++ o.currency,
   "Items: " ++ toString ((o.line_items.map (fun item => item.quantity)).sum),
   "Customer:\n" ++ o.customer.first_name]
  ++ o.line_items.map (fun item => "Product:\n" ++ item.name)

/-- Pairwise grouping as worded by the spec: two entries at a time joined by a
line break, a trailing single entry forming its own final screen. -/
def group_pairs : List String → List String
  | [] => []
  | [a] => [a]
  | a :: b :: rest => (a ++ "\n" ++ b) :: group_pairs rest

/-- Reference screen builder following the spec text of §4.1 (C1). -/
def build_ref (o : Order) : List String :=
  group_pairs (order_entries o)

/-- Completed pairs produced by the grouping loop so far. -/
def pairs_done : List String → List String
  | [] => []
  | [_] => []
  | a :: b :: rest => (a ++ "\n" ++ b) :: pairs_done rest

/-- Remainder held in `temp` when the grouping loop finishes. -/
def pairs_rest : List String → List String
  | [] => []
  | [a] => [a]
  | _ :: _ :: rest => pairs_rest rest

/-- The example order of the spec's §8 scenario. -/
def example_order : Order :=
  { name := "#1001"
    total_price := "42.50"
    currency := "USD"
    customer := { first_name := "Alice" }
    line_items := [{ name := "Widget", quantity := 2 }] }

/-- An order with no line items, for the zero-line-item edge case of C1. -/
def order_no_items : Order :=
  { name := "#7"
    total_price := "0.00"
    currency := "EUR"
    customer := { first_name := "Eve" }
    line_items := [] }

/-- An order whose product screen text `"Product:\nWidgets"` has 16
characters, so its scroll limit 16 + 128 + 156 = 300 is a multiple of the
10-pixel scroll step. -/
def order_widgets : Order :=
  { name := "#2"
    total_price := "9.99"
    currency := "USD"
    customer := { first_name := "Bob" }
    line_items := [{ name := "Widgets", quantity := 1 }] }

/-- `DisplayManager(width=128, ...)` as constructed in the main entry point. -/
def device_width : Nat := 128

/-- `max_width = len(self.screens[self.screen_index])` (line 130).  Python list
indexing is totalized with `""`; index validity for reachable states is proven
below (C8). -/
def max_width (s : DisplaySession) : Nat :=
  (s.screens.getD s.screen_index "").length

/-- `scroll_limit = max_width + self.device.width + 156` (line 131). -/
def scroll_limit (s : DisplaySession) : Nat :=
  max_width s + device_width + 156

/-- The value of `self.scroll_position` after the draw phase of an ORDER_INFO
tick: updated modulo `scroll_limit` when `screen_index > 1` (line 137), left
unchanged otherwise (the `else` branch draws with offset 0 without writing). -/
def scroll_after (s : DisplaySession) : Nat :=
  if 1 < s.screen_index then (s.scroll_position + 10) % scroll_limit s
  else s.scroll_position

/-- The screen-switch condition of line 143:
`time.time() - self.state_start_time > 8 or self.scroll_position >= scroll_limit + max_width`,
evaluated after the scroll update. -/
def advance_cond (s : DisplaySession) (now : Int) : Bool :=
  decide (8 < now - s.state_start_time)
    || decide (scroll_limit s + max_width s ≤ scroll_after s)

/-- One iteration of `DisplayManager.display_loop` (lines 117-158), acting on
the session fields; `now` is the value of `time.time()` during the iteration. -/
def display_tick (s : DisplaySession) (now : Int) : DisplaySession :=
  match s.display_state with
  | DisplayState.CELEBRATION =>
      if 3 < now - s.state_start_time then
        { s with display_state := DisplayState.ORDER_INFO
                 state_start_time := now
                 screen_index := 0
                 cycles_remaining := 2 }
      else s
  | DisplayState.ORDER_INFO =>
      if s.screens = [] then s
      else
        let s1 := { s with scroll_position := scroll_after s }
        if advance_cond s now then
          let idx := s1.screen_index + 1
          if s1.screens.length ≤ idx then
            let cycles := s1.cycles_remaining - 1
            if cycles ≤ 0 then
              { s1 with screen_index := 0
                        scroll_position := 0
                        cycles_remaining := cycles
                        display_state := DisplayState.IDLE
                        state_start_time := now }
            else
              { s1 with screen_index := 0
                        scroll_position := 0
                        cycles_remaining := cycles
                        state_start_time := now }
          else
            { s1 with screen_index := idx
                      scroll_position := 0
                      state_start_time := now }
        else s1
  | DisplayState.IDLE => s

/-- `DisplayManager.set_new_order` (lines 182-192). -/
def set_new_order (s : DisplaySession) (order_data : Order) (now : Int) :
    DisplaySession :=
  { s with order_data := some order_data
           screens := create_order_screens order_data
           scroll_position := 0
           display_state := DisplayState.CELEBRATION
           state_start_time := now }

/-- Run a sequence of render-loop iterations at the given times. -/
def run (s : DisplaySession) (ticks : List Int) : DisplaySession :=
  ticks.foldl display_tick s

/-- Session states reachable from construction via render ticks and
`set_new_order` events. -/
inductive Reachable : DisplaySession → Prop where
  | init : ∀ t0, Reachable (init_session t0)
  | tick : ∀ s now, Reachable s → Reachable (display_tick s now)
  | new_order : ∀ s o now, Reachable s → Reachable (set_new_order s o now)

/-- The state invariant maintained by the render loop and `set_new_order`. -/
def Inv (s : DisplaySession) : Prop :=
  (s.display_state = DisplayState.CELEBRATION →
    s.scroll_position = 0 ∧ s.screens ≠ [])
  ∧ (s.display_state = DisplayState.IDLE → s.scroll_position = 0)
  ∧ (s.display_state = DisplayState.ORDER_INFO →
      s.screens ≠ [] ∧ s.screen_index < s.screens.length
        ∧ s.scroll_position < scroll_limit s
        ∧ (s.screen_index ≤ 1 → s.scroll_position = 0))
  ∧ s.cycles_remaining ≤ 2

/-- The state right after the webhook delivers the example order at time 0. -/
def s_celebration : DisplaySession := set_new_order (init_session 0) example_order 0

/-- ORDER_INFO on screen 0 (tick at 4 leaves CELEBRATION). -/
def s_orderinfo : DisplaySession := run s_celebration [4]

/-- ORDER_INFO mid-cycle, on screen 1. -/
def s_mid : DisplaySession := run s_celebration [4, 13]

/-- ORDER_INFO on the scrolling screen 2 of the example order. -/
def s_idx2 : DisplaySession := run s_celebration [4, 13, 22]

/-- ORDER_INFO on the last screen of the last remaining cycle. -/
def s_last : DisplaySession := run s_celebration [4, 13, 22, 31, 40, 49]

/-- ORDER_INFO on screen 2 of `order_widgets` after 29 scroll-only ticks:
`scroll_position = 290`, one step short of the 300-pixel scroll limit. -/
def s_wrap_mod : DisplaySession :=
  run (set_new_order (init_session 0) order_widgets 0)
    ([4, 13, 22] ++ List.replicate 29 22)

/-- The literal reading of C6 for a given text-measuring capability: the
modulo scroll update of an ORDER_INFO tick is governed by
`measure (active screen text) + deviceWidth + 156`. -/
def measured_limit_governs (measure : String → Nat) : Prop :=
  ∀ s now, s.display_state = DisplayState.ORDER_INFO → s.screens ≠ [] →
    1 < s.screen_index → ¬ advance_cond s now = true →
    (display_tick s now).scroll_position =
      (s.scroll_position + 10) %
        (measure (s.screens.getD s.screen_index "") + device_width + 156)

/-- Outcome of one render-loop iteration with the two display I/O failure
points of the source made explicit.  `display_loop` has no try/except.
`draw_ok` is whether the draw calls inside the `with canvas` block succeed;
they all precede the iteration's session mutations (lines 120 before
122-126, lines 135/140 before 137 and 143-152), so a raising draw leaves
the session unchanged.  `commit_ok` is whether the frame commit
(`device.display` at `with`-block exit) succeeds; it runs after the body,
so a raising commit leaves the session as mutated by this iteration.
Either exception propagates. -/
def display_tick_checked (s : DisplaySession) (now : Int)
    (draw_ok commit_ok : Bool) : Except DisplaySession DisplaySession :=
  if draw_ok then
    if commit_ok then Except.ok (display_tick s now)
    else Except.error (display_tick s now)
  else Except.error s

/-- The render loop over a list of iterations `(now, draw_ok, commit_ok)`:
a raised exception exits the `while` of `display_loop` (no handler),
carrying the session state at termination. -/
def display_loop_run (s : DisplaySession) :
    List (Int × Bool × Bool) → Except DisplaySession DisplaySession
  | [] => Except.ok s
  | (now, draw_ok, commit_ok) :: rest =>
      match display_tick_checked s now draw_ok commit_ok with
      | Except.ok s1 => display_loop_run s1 rest
      | Except.error e => Except.error e

/-- A line segment drawn on the OLED surface. -/
structure Segment where
  x1 : Int
  y1 : Int
  x2 : Int
  y2 : Int

/-- One committed frame of the alert animation. -/
inductive Frame where
  | lightning : List Segment → Frame
  | blank : Frame

/-- `DisplayManager` as a whole: the session fields plus the surface the
animation draws to (committed frames, oldest first). -/
structure ManagerState where
  session : DisplaySession
  frames : List Frame

/-- The segment loop of `_draw_lightning`; `rand` supplies the successive
`random.randint` results in call order, and positions are clamped to the
device bounds with `max`/`min` as in the source. -/
def lightning_loop (rand : Nat → Int) (width height : Int) :
    Nat → Int → Int → Nat → List Segment
  | 0, _, _, _ => []
  | k + 1, cx, cy, i =>
      let dx := rand i
      let dy := rand (i + 1)
      let nx := max 0 (min (width - 1) (cx + dx))
      let ny := max 0 (min (height - 1) (cy + dy))
      { x1 := cx, y1 := cy, x2 := nx, y2 := ny } ::
        lightning_loop rand width height k nx ny (i + 2)

/-- `DisplayManager._draw_lightning` as a pure function of the randomness:
`rand 0` plays `start_x`, `rand 1` the segment count, the rest the per-segment
perturbations. -/
def draw_lightning_segs (rand : Nat → Int) : List Segment :=
  lightning_loop rand (device_width : Int) 64 (rand 1).toNat (rand 0) 0 2

/-- `DisplayManager.show_lightning_animation`: each loop iteration commits one
random lightning frame and one blank flash frame.  `iters` is the number of
iterations the `while time.time() - start_time < duration` guard allows for
the requested duration, and `entropy i` the randomness of iteration `i`.
The function only draws to the device. -/
def show_lightning_animation (entropy : Nat → Nat → Int) :
    ManagerState → Nat → ManagerState
  | m, 0 => m
  | m, k + 1 =>
      show_lightning_animation entropy
        { m with frames := m.frames ++
            [Frame.lightning (draw_lightning_segs (entropy k)), Frame.blank] } k

theorem intercalate_single (s a : String) : String.intercalate s [a] = a := rfl

theorem intercalate_pair (s a b : String) :
    String.intercalate s [a, b] = a ++ s ++ b := rfl

theorem foldl_group_step : ∀ (l done : List String),
    List.foldl group_step (done, []) l = (done ++ pairs_done l, pairs_rest l)
  | [], done => by simp [pairs_done, pairs_rest]
  | [a], done => by
      simp [group_step, pairs_done, pairs_rest]
  | a :: b :: rest, done => by
      have ih := foldl_group_step rest (done ++ [a ++ "\n" ++ b])
      have h1 : group_step (done, []) a = (done, [a]) := by
        simp [group_step]
      have h2 : group_step (done, [a]) b = (done ++ [a ++ "\n" ++ b], []) := by
        simp [group_step, intercalate_pair]
      rw [List.foldl_cons, List.foldl_cons, h1, h2, ih]
      simp [pairs_done, pairs_rest]

theorem pairs_rest_nil_or_single : ∀ l : List String,
    pairs_rest l = [] ∨ ∃ a, pairs_rest l = [a]
  | [] => Or.inl rfl
  | [a] => Or.inr ⟨a, rfl⟩
  | _ :: _ :: rest => pairs_rest_nil_or_single rest

theorem group_pairs_eq_done_append_rest : ∀ l : List String,
    group_pairs l = pairs_done l ++ pairs_rest l
  | [] => rfl
  | [a] => rfl
  | a :: b :: rest => by
      simp [group_pairs, pairs_done, pairs_rest,
        group_pairs_eq_done_append_rest rest]

theorem group_screens_eq_pairs (l : List String) :
    group_screens l = group_pairs l := by
  unfold group_screens
  rw [foldl_group_step l []]
  rcases pairs_rest_nil_or_single l with h | ⟨a, h⟩ <;>
    simp [h, group_pairs_eq_done_append_rest l, intercalate_single]

theorem group_pairs_length : ∀ l : List String,
    (group_pairs l).length = (l.length + 1) / 2
  | [] => rfl
  | [_] => by simp [group_pairs]
  | _ :: _ :: rest => by
      simp only [group_pairs, List.length_cons, group_pairs_length rest]
      omega

theorem create_order_screens_eq_ref (o : Order) :
    create_order_screens o = build_ref o := by
  unfold create_order_screens build_ref order_entries
  rw [group_screens_eq_pairs]

theorem create_order_screens_length (o : Order) :
    (create_order_screens o).length = (4 + o.line_items.length + 1) / 2 := by
  rw [create_order_screens_eq_ref]
  unfold build_ref
  rw [group_pairs_length]
  simp [order_entries]
  omega

theorem create_order_screens_ne_nil (o : Order) : create_order_screens o ≠ [] := by
  intro h
  have := create_order_screens_length o
  rw [h] at this
  simp at this
  omega

theorem reachable_run {s : DisplaySession} (h : Reachable s) (ticks : List Int) :
    Reachable (run s ticks) := by
  induction ticks generalizing s with
  | nil => exact h
  | cons t rest ih => exact ih (Reachable.tick s t h)

theorem reachable_s_celebration : Reachable s_celebration :=
  Reachable.new_order _ _ _ (Reachable.init 0)

theorem scroll_limit_pos (s : DisplaySession) : 0 < scroll_limit s := by
  unfold scroll_limit device_width
  omega

theorem inv_init (t0 : Int) : Inv (init_session t0) := by
  refine ⟨fun h => ?_, fun _ => rfl, fun h => ?_, by norm_num [init_session]⟩
    <;> simp [init_session] at h

theorem inv_new_order {s : DisplaySession} (hs : Inv s) (o : Order) (now : Int) :
    Inv (set_new_order s o now) := by
  obtain ⟨-, -, -, h4⟩ := hs
  refine ⟨fun _ => ⟨rfl, create_order_screens_ne_nil o⟩, fun h => ?_, fun h => ?_, h4⟩
    <;> simp [set_new_order] at h

theorem inv_tick {s : DisplaySession} (hs : Inv s) (now : Int) :
    Inv (display_tick s now) := by
  obtain ⟨st, sst, sp, scr, si, cr, od⟩ := s
  obtain ⟨h1, h2, h3, h4⟩ := hs
  cases st with
  | CELEBRATION =>
      obtain ⟨hscroll, hne⟩ := h1 rfl
      replace hscroll : sp = 0 := hscroll
      replace hne : scr ≠ [] := hne
      replace h4 : cr ≤ 2 := h4
      have hlen : 0 < scr.length := List.length_pos.mpr hne
      unfold display_tick
      dsimp only
      by_cases ht : 3 < now - sst
      · rw [if_pos ht]
        dsimp only [Inv, scroll_limit, max_width, device_width]
        refine ⟨fun h => absurd h (by decide), fun h => absurd h (by decide),
          fun _ => ⟨hne, hlen, by omega, fun _ => hscroll⟩, by decide⟩
      · rw [if_neg ht]
        refine ⟨fun _ => ⟨hscroll, hne⟩, fun h => ?_, fun h => ?_, h4⟩ <;> simp at h
  | ORDER_INFO =>
      obtain ⟨hne, hidx, hscroll, hlow⟩ := h3 rfl
      replace hne : scr ≠ [] := hne
      replace hidx : si < scr.length := hidx
      replace hscroll : sp < (scr.getD si "").length + device_width + 156 := hscroll
      replace hlow : si ≤ 1 → sp = 0 := hlow
      replace h4 : cr ≤ 2 := h4
      have hlen : 0 < scr.length := List.length_pos.mpr hne
      unfold display_tick
      dsimp only
      rw [if_neg hne]
      have hafter : scroll_after ⟨DisplayState.ORDER_INFO, sst, sp, scr, si, cr, od⟩
          < (scr.getD si "").length + device_width + 156 := by
        dsimp only [scroll_after, scroll_limit, max_width]
        by_cases hgt : 1 < si
        · rw [if_pos hgt]
          exact Nat.mod_lt _ (by omega)
        · rw [if_neg hgt]
          exact hscroll
      by_cases hadv :
          advance_cond ⟨DisplayState.ORDER_INFO, sst, sp, scr, si, cr, od⟩ now = true
      · rw [if_pos hadv]
        by_cases hwrap : scr.length ≤ si + 1
        · rw [if_pos hwrap]
          by_cases hcyc : cr - 1 ≤ 0
          · rw [if_pos hcyc]
            dsimp only [Inv]
            exact ⟨fun h => absurd h (by decide), fun _ => rfl,
              fun h => absurd h (by decide), by omega⟩
          · rw [if_neg hcyc]
            dsimp only [Inv, scroll_limit, max_width, device_width]
            exact ⟨fun h => absurd h (by decide), fun h => absurd h (by decide),
              fun _ => ⟨hne, hlen, by omega, fun _ => rfl⟩, by omega⟩
        · rw [if_neg hwrap]
          dsimp only [Inv, scroll_limit, max_width, device_width]
          exact ⟨fun h => absurd h (by decide), fun h => absurd h (by decide),
            fun _ => ⟨hne, by omega, by omega, fun _ => rfl⟩, h4⟩
      · rw [if_neg hadv]
        dsimp only [Inv, scroll_limit, max_width, device_width] at hafter ⊢
        refine ⟨fun h => absurd h (by decide), fun h => absurd h (by decide),
          fun _ => ⟨hne, hidx, hafter, fun hle => ?_⟩, h4⟩
        dsimp only [scroll_after, scroll_limit, max_width, device_width]
        rw [if_neg (by omega)]
        exact hlow hle
  | IDLE =>
      exact ⟨h1, h2, h3, h4⟩

theorem reachable_inv {s : DisplaySession} (h : Reachable s) : Inv s := by
  induction h with
  | init t0 => exact inv_init t0
  | tick s now _ ih => exact inv_tick ih now
  | new_order s o now _ ih => exact inv_new_order ih o now

/-- Claim C1: `ScreenBuilder.build` equals the spec's reference definition
(entry list grouped two at a time, trailing single entry on its own screen),
hence produces exactly ceil((4+L)/2) screens, 2 screens when L = 0, and the
`#1001`/Alice/Widget example order yields exactly the three listed screens. -/
theorem C1_screen_builder_spec :
    (∀ o : Order, create_order_screens o = build_ref o
      ∧ (create_order_screens o).length = (4 + o.line_items.length + 1) / 2)
  ∧ (∀ o : Order, o.line_items = [] → (create_order_screens o).length = 2)
  ∧ create_order_screens example_order =
      ["Order #1001\nTotal: 42.50 USD", "Items: 2\nCustomer:\nAlice",
       "Product:\nWidget"] := by
  refine ⟨fun o => ⟨create_order_screens_eq_ref o, create_order_screens_length o⟩,
    fun o h => ?_, by decide⟩
  rw [create_order_screens_length o, h]
  rfl

/-- Witness for C1 at a concrete zero-line-item order. -/
theorem C1_witness :
    order_no_items.line_items = [] ∧ (create_order_screens order_no_items).length = 2 :=
  ⟨rfl, C1_screen_builder_spec.2.1 order_no_items rfl⟩

/-- Claim C2 (amended): `set_new_order` atomically stores the order, rebuilds
the screens, resets `scrollOffset` to 0, enters CELEBRATION and stamps
`stateStartTime = now`; no other outcome is possible.  It leaves
`screenIndex` (and `cyclesRemaining`) unchanged — the index is reset to 0
only at the later Celebration → OrderInfo transition. -/
theorem C2_new_order_amended (s : DisplaySession) (o : Order) (now : Int) :
    set_new_order s o now =
      { display_state := DisplayState.CELEBRATION
        state_start_time := now
        scroll_position := 0
        screens := create_order_screens o
        screen_index := s.screen_index
        cycles_remaining := s.cycles_remaining
        order_data := some o } := rfl

/-- Counterexample to C2 as stated: at the reachable mid-cycle state `s_mid`
(screen index 1), `set_new_order` does not set `screenIndex` to 0. -/
theorem C2_counterexample :
    Reachable s_mid ∧ s_mid.screen_index = 1
      ∧ (set_new_order s_mid example_order 99).display_state = DisplayState.CELEBRATION
      ∧ (set_new_order s_mid example_order 99).screen_index ≠ 0 :=
  ⟨reachable_run (Reachable.new_order _ _ _ (Reachable.init 0)) [4, 13],
    by decide, rfl, by decide⟩

/-- Claim C3: a render tick in CELEBRATION strictly past the 3-second
threshold moves the session to ORDER_INFO with `stateStartTime = now`,
`screenIndex = 0`, `cyclesRemaining = 2` and `scrollOffset = 0`; at or under
the threshold the session is unchanged, so it remains in CELEBRATION. -/
theorem C3_celebration_transition (s : DisplaySession) (now : Int)
    (hr : Reachable s) (hst : s.display_state = DisplayState.CELEBRATION) :
    (3 < now - s.state_start_time →
      display_tick s now =
        { s with display_state := DisplayState.ORDER_INFO
                 state_start_time := now
                 screen_index := 0
                 scroll_position := 0
                 cycles_remaining := 2 })
  ∧ (¬ 3 < now - s.state_start_time → display_tick s now = s) := by
  have hscroll := ((reachable_inv hr).1 hst).1
  obtain ⟨st, sst, sp, scr, si, cr, od⟩ := s
  replace hst : st = DisplayState.CELEBRATION := hst
  subst hst
  replace hscroll : sp = 0 := hscroll
  subst hscroll
  unfold display_tick
  dsimp only
  constructor
  · intro ht
    rw [if_pos ht]
  · intro ht
    rw [if_neg ht]

/-- Witness for C3: the example celebration state, ticked at time 4. -/
theorem C3_witness :
    display_tick s_celebration 4 =
      { s_celebration with
          display_state := DisplayState.ORDER_INFO
          state_start_time := 4
          screen_index := 0
          scroll_position := 0
          cycles_remaining := 2 } :=
  (C3_celebration_transition s_celebration 4 reachable_s_celebration rfl).1 (by decide)

/-- Claim C4: starting from any reachable session, a tick enters IDLE exactly
when an ORDER_INFO wrap past the last screen fires with at most one cycle
left; `cyclesRemaining` strictly decreases exactly on such a wrap, by exactly
1 (with `screenIndex` returning to 0); and a `NewOrder` event never changes
`cyclesRemaining` nor produces IDLE. -/
theorem C4_idle_iff_cycles (s : DisplaySession) (now : Int) (hr : Reachable s) :
    (((display_tick s now).display_state = DisplayState.IDLE
        ∧ s.display_state ≠ DisplayState.IDLE) ↔
      (s.display_state = DisplayState.ORDER_INFO ∧ s.screens ≠ []
        ∧ advance_cond s now = true ∧ s.screens.length ≤ s.screen_index + 1
        ∧ s.cycles_remaining ≤ 1))
  ∧ ((display_tick s now).cycles_remaining < s.cycles_remaining ↔
      (s.display_state = DisplayState.ORDER_INFO ∧ s.screens ≠ []
        ∧ advance_cond s now = true ∧ s.screens.length ≤ s.screen_index + 1))
  ∧ ((s.display_state = DisplayState.ORDER_INFO ∧ s.screens ≠ []
        ∧ advance_cond s now = true ∧ s.screens.length ≤ s.screen_index + 1) →
      (display_tick s now).cycles_remaining = s.cycles_remaining - 1
        ∧ (display_tick s now).screen_index = 0)
  ∧ (∀ o, (set_new_order s o now).cycles_remaining = s.cycles_remaining
      ∧ (set_new_order s o now).display_state ≠ DisplayState.IDLE) := by
  have h4 : s.cycles_remaining ≤ 2 := (reachable_inv hr).2.2.2
  obtain ⟨st, sst, sp, scr, si, cr, od⟩ := s
  replace h4 : cr ≤ 2 := h4
  have hnew : ∀ o : Order,
      (set_new_order ⟨st, sst, sp, scr, si, cr, od⟩ o now).cycles_remaining = cr
        ∧ (set_new_order ⟨st, sst, sp, scr, si, cr, od⟩ o now).display_state
            ≠ DisplayState.IDLE :=
    fun o => ⟨rfl, fun h => by simp [set_new_order] at h⟩
  cases st with
  | CELEBRATION =>
      unfold display_tick
      dsimp only
      by_cases ht : 3 < now - sst
      · rw [if_pos ht]
        refine ⟨?_, ?_, ?_, hnew⟩
        · simp
        · simp
          omega
        · rintro ⟨h, -⟩
          simp at h
      · rw [if_neg ht]
        refine ⟨?_, ?_, ?_, hnew⟩
        · simp
        · simp
        · rintro ⟨h, -⟩
          simp at h
  | ORDER_INFO =>
      unfold display_tick
      dsimp only
      by_cases hne : scr = []
      · rw [if_pos hne]
        refine ⟨?_, ?_, ?_, hnew⟩
        · simp [hne]
        · simp [hne]
        · rintro ⟨-, h, -⟩
          exact absurd hne h
      · rw [if_neg hne]
        by_cases hadv :
            advance_cond ⟨DisplayState.ORDER_INFO, sst, sp, scr, si, cr, od⟩ now = true
        · rw [if_pos hadv]
          by_cases hwrap : scr.length ≤ si + 1
          · rw [if_pos hwrap]
            by_cases hcyc : cr - 1 ≤ 0
            · rw [if_pos hcyc]
              refine ⟨?_, ?_, fun _ => ⟨rfl, rfl⟩, hnew⟩
              · simp [hne, hadv, hwrap]
                omega
              · simp [hne, hadv, hwrap]
            · rw [if_neg hcyc]
              refine ⟨?_, ?_, fun _ => ⟨rfl, rfl⟩, hnew⟩
              · simp [hne, hadv, hwrap]
                omega
              · simp [hne, hadv, hwrap]
          · rw [if_neg hwrap]
            refine ⟨?_, ?_, ?_, hnew⟩
            · simp [hne, hadv, hwrap]
            · simp [hne, hadv, hwrap]
            · rintro ⟨-, -, -, h⟩
              exact absurd h hwrap
        · rw [if_neg hadv]
          refine ⟨?_, ?_, ?_, hnew⟩
          · simp [hne, hadv]
          · simp [hne, hadv]
          · rintro ⟨-, -, h, -⟩
            exact absurd h hadv
  | IDLE =>
      unfold display_tick
      dsimp only
      refine ⟨?_, ?_, ?_, hnew⟩
      · simp
      · simp
      · rintro ⟨h, -⟩
        simp at h

/-- Witness for C4: from the reachable last-screen state `s_last`
(one cycle remaining), the timed-out tick at 58 enters IDLE. -/
theorem C4_witness :
    (display_tick s_last 58).display_state = DisplayState.IDLE
      ∧ s_last.display_state ≠ DisplayState.IDLE :=
  (C4_idle_iff_cycles s_last 58
      (reachable_run reachable_s_celebration [4, 13, 22, 31, 40, 49])).1.mpr
    (by decide)

/-- Claim C5 (amended): in every reachable ORDER_INFO state with non-empty
screens, `scrollOffset` lies in `[0, scrollLimit)`; `scrollOffset` is 0
immediately after any tick that changes `screenIndex` and after any
`NewOrder`; and on a tick that keeps `screenIndex`, `scrollOffset` either
stays or takes the modulo step `(scrollOffset + 10) % scrollLimit` — which
can itself wrap to 0, so index changes and `NewOrder` are not the only
points where `scrollOffset` equals 0. -/
theorem C5_scroll_reset_amended (s : DisplaySession) (hr : Reachable s) :
    (s.display_state = DisplayState.ORDER_INFO → s.screens ≠ [] →
      s.scroll_position < scroll_limit s)
  ∧ (∀ now, (display_tick s now).screen_index ≠ s.screen_index →
      (display_tick s now).scroll_position = 0)
  ∧ (∀ o now, (set_new_order s o now).scroll_position = 0)
  ∧ (∀ now, s.display_state = DisplayState.ORDER_INFO → s.screens ≠ [] →
      (display_tick s now).screen_index = s.screen_index →
      ((display_tick s now).scroll_position = s.scroll_position
        ∨ (display_tick s now).scroll_position =
            (s.scroll_position + 10) % scroll_limit s)) := by
  obtain ⟨h1, h2, h3, h4⟩ := reachable_inv hr
  obtain ⟨st, sst, sp, scr, si, cr, od⟩ := s
  refine ⟨fun hst _ => (h3 hst).2.2.1, ?_, fun o now => rfl, ?_⟩
  · intro now hidx
    cases st with
    | CELEBRATION =>
        obtain ⟨hscroll, -⟩ := h1 rfl
        unfold display_tick at hidx ⊢
        dsimp only at hidx ⊢
        by_cases ht : 3 < now - sst
        · rw [if_pos ht] at hidx ⊢
          exact hscroll
        · rw [if_neg ht] at hidx ⊢
          exact absurd rfl hidx
    | ORDER_INFO =>
        unfold display_tick at hidx ⊢
        dsimp only at hidx ⊢
        by_cases hne : scr = []
        · rw [if_pos hne] at hidx ⊢
          exact absurd rfl hidx
        · rw [if_neg hne] at hidx ⊢
          by_cases hadv :
              advance_cond ⟨DisplayState.ORDER_INFO, sst, sp, scr, si, cr, od⟩ now = true
          · rw [if_pos hadv] at hidx ⊢
            by_cases hwrap : scr.length ≤ si + 1
            · rw [if_pos hwrap] at hidx ⊢
              by_cases hcyc : cr - 1 ≤ 0
              · rw [if_pos hcyc] at hidx ⊢
              · rw [if_neg hcyc] at hidx ⊢
            · rw [if_neg hwrap] at hidx ⊢
          · rw [if_neg hadv] at hidx ⊢
            exact absurd rfl hidx
    | IDLE =>
        exact absurd rfl hidx
  · intro now hst hne hidx
    replace hst : st = DisplayState.ORDER_INFO := hst
    subst hst
    replace hne : scr ≠ [] := hne
    obtain ⟨-, hidxlt, hsc, hlow⟩ := h3 rfl
    replace hidxlt : si < scr.length := hidxlt
    replace hlow : si ≤ 1 → sp = 0 := hlow
    unfold display_tick at hidx ⊢
    dsimp only at hidx ⊢
    rw [if_neg hne] at hidx ⊢
    by_cases hadv :
        advance_cond ⟨DisplayState.ORDER_INFO, sst, sp, scr, si, cr, od⟩ now = true
    · rw [if_pos hadv] at hidx ⊢
      by_cases hwrap : scr.length ≤ si + 1
      · rw [if_pos hwrap] at hidx ⊢
        have hsi : si = 0 := by
          by_cases hcyc : cr - 1 ≤ 0
          · rw [if_pos hcyc] at hidx
            have h0 : (0 : Nat) = si := hidx
            omega
          · rw [if_neg hcyc] at hidx
            have h0 : (0 : Nat) = si := hidx
            omega
        have hsp : sp = 0 := hlow (by omega)
        by_cases hcyc : cr - 1 ≤ 0
        · rw [if_pos hcyc]
          exact Or.inl hsp.symm
        · rw [if_neg hcyc]
          exact Or.inl hsp.symm
      · rw [if_neg hwrap] at hidx
        have h1 : si + 1 = si := hidx
        exact absurd h1 (by omega)
    · rw [if_neg hadv]
      dsimp only [scroll_after]
      by_cases hgt : 1 < si
      · rw [if_pos hgt]
        exact Or.inr rfl
      · rw [if_neg hgt]
        exact Or.inl rfl

/-- Witness for C5 at the reachable scrolling state `s_idx2`. -/
theorem C5_witness :
    (set_new_order s_idx2 example_order 99).scroll_position = 0 :=
  (C5_scroll_reset_amended s_idx2
      (reachable_run reachable_s_celebration [4, 13, 22])).2.2.1 example_order 99

/-- Counterexample to C5 as stated: at the reachable state `s_wrap_mod`
(scroll 290, limit 300), the next tick wraps `scrollOffset` to 0 by the
modulo update while `screenIndex` stays 2 and no `NewOrder` occurs — a
reset point the claim excludes. -/
theorem C5_counterexample :
    Reachable s_wrap_mod
      ∧ s_wrap_mod.scroll_position = 290
      ∧ (display_tick s_wrap_mod 22).scroll_position = 0
      ∧ (display_tick s_wrap_mod 22).screen_index = s_wrap_mod.screen_index :=
  ⟨reachable_run (Reachable.new_order _ _ _ (Reachable.init 0)) _,
    by decide, by decide, by decide⟩

/-- Claim C6 (amended): the scroll limit governing both the modulo scroll
update and the width-based advance disjunct of an ORDER_INFO tick is the
character count (Python `len`) of the active screen's text plus
`deviceWidth` plus 156 — not a measured pixel text width. -/
theorem C6_scroll_limit_amended (s : DisplaySession) (now : Int)
    (h1 : s.display_state = DisplayState.ORDER_INFO) (h2 : s.screens ≠ []) :
    (1 < s.screen_index → ¬ advance_cond s now = true →
      (display_tick s now).scroll_position =
        (s.scroll_position + 10) %
          ((s.screens.getD s.screen_index "").length + device_width + 156))
  ∧ (advance_cond s now = true ↔
      (8 < now - s.state_start_time
        ∨ (s.screens.getD s.screen_index "").length + device_width + 156
            + (s.screens.getD s.screen_index "").length ≤ scroll_after s)) := by
  obtain ⟨st, sst, sp, scr, si, cr, od⟩ := s
  replace h1 : st = DisplayState.ORDER_INFO := h1
  subst h1
  replace h2 : scr ≠ [] := h2
  constructor
  · intro hgt hadv
    unfold display_tick
    dsimp only
    rw [if_neg h2, if_neg hadv]
    dsimp only [scroll_after, scroll_limit, max_width]
    rw [if_pos hgt]
  · unfold advance_cond scroll_limit max_width
    simp only [Bool.or_eq_true, decide_eq_true_eq]

/-- Witness for C6 at the reachable scrolling state `s_idx2`, ticked at 22. -/
theorem C6_witness :
    (display_tick s_idx2 22).scroll_position =
      (s_idx2.scroll_position + 10) %
        ((s_idx2.screens.getD s_idx2.screen_index "").length + device_width + 156) :=
  (C6_scroll_limit_amended s_idx2 22 rfl (by decide)).1 (by decide) (by decide)

/-- Counterexample to C6 as stated: for a representative pixel metric
(6 pixels per character), the scroll update of the reachable state
`s_wrap_mod` is not governed by measured width + deviceWidth + 156: the code
wraps at the character-count limit 300, the claimed limit would be 380. -/
theorem C6_counterexample : ¬ measured_limit_governs (fun t => 6 * t.length) := by
  intro h
  have hx := h s_wrap_mod 22 (by decide) (by decide) (by decide) (by decide)
  exact absurd hx (by decide)

/-- Claim C7 (amended): a failing frame draw or commit terminates the render
loop at that iteration — the exception propagates out of `display_loop`, no
later iteration is processed, and there is no local log-and-skip recovery.
A failing draw (raised inside the `with` block, before the iteration's
session mutations) leaves the session unchanged; a failing commit (raised at
`with`-block exit, after the mutations) leaves the session as mutated by the
failing iteration. -/
theorem C7_draw_failure_amended (s : DisplaySession) (now : Int)
    (rest : List (Int × Bool × Bool)) :
    (∀ commit_ok,
      display_loop_run s ((now, false, commit_ok) :: rest) = Except.error s)
  ∧ display_loop_run s ((now, true, false) :: rest) =
      Except.error (display_tick s now) :=
  ⟨fun _ => rfl, rfl⟩

/-- Counterexample to C7 as stated: a single failing frame does not make the
loop proceed to the next tick — the run aborts instead of continuing — and a
commit failure on the celebration-transition tick aborts with a session that
the failing iteration did mutate (its state moved to ORDER_INFO). -/
theorem C7_counterexample :
    display_loop_run (init_session 0) [((0 : Int), false, true)] =
        Except.error (init_session 0)
      ∧ display_loop_run (init_session 0) [] = Except.ok (init_session 0)
      ∧ display_loop_run (init_session 0) [((0 : Int), false, true)] ≠
          display_loop_run (init_session 0) []
      ∧ display_loop_run s_celebration [((4 : Int), true, false)] =
          Except.error (display_tick s_celebration 4)
      ∧ (display_tick s_celebration 4).display_state ≠ s_celebration.display_state :=
  ⟨rfl, rfl, by simp [display_loop_run, display_tick_checked], rfl, by decide⟩

/-- Claim C9: `show_lightning_animation` only draws frames to the device; for
every starting manager state, randomness and duration (allowed iteration
count), every Display Session field is unchanged. -/
theorem C9_alert_preserves_session (entropy : Nat → Nat → Int)
    (m : ManagerState) (iters : Nat) :
    (show_lightning_animation entropy m iters).session = m.session := by
  induction iters generalizing m with
  | zero => rfl
  | succ k ih => exact ih _

/-- Claim C8: in every reachable session, if the state is ORDER_INFO and the
screens are non-empty then `screenIndex` is a valid index, and this is
preserved by every tick and every `NewOrder` event. -/
theorem C8_screen_index_valid (s : DisplaySession) (hr : Reachable s) :
    (s.display_state = DisplayState.ORDER_INFO → s.screens ≠ [] →
      s.screen_index < s.screens.length)
  ∧ (∀ now, (display_tick s now).display_state = DisplayState.ORDER_INFO →
      (display_tick s now).screens ≠ [] →
      (display_tick s now).screen_index < (display_tick s now).screens.length)
  ∧ (∀ o now, (set_new_order s o now).display_state = DisplayState.ORDER_INFO →
      (set_new_order s o now).screens ≠ [] →
      (set_new_order s o now).screen_index < (set_new_order s o now).screens.length) := by
  refine ⟨fun h _ => ((reachable_inv hr).2.2.1 h).2.1,
    fun now h _ => ((reachable_inv (Reachable.tick s now hr)).2.2.1 h).2.1,
    fun o now h _ => ((reachable_inv (Reachable.new_order s o now hr)).2.2.1 h).2.1⟩

/-- Witness for C8 at the reachable ORDER_INFO state `s_orderinfo`. -/
theorem C8_witness : s_orderinfo.screen_index < s_orderinfo.screens.length :=
  (C8_screen_index_valid s_orderinfo
      (reachable_run reachable_s_celebration [4])).1 rfl (by decide)

/-- Claim C10: in every reachable session `scrollOffset < scrollLimit`, so on
an ORDER_INFO tick with non-empty screens the width-based disjunct of the
advance condition is never true and a screen advance occurs exactly when
`now - stateStartTime` exceeds the 8-second screen timeout. -/
theorem C10_advance_only_on_timeout (s : DisplaySession) (now : Int)
    (hr : Reachable s) :
    s.scroll_position < scroll_limit s
  ∧ (s.display_state = DisplayState.ORDER_INFO → s.screens ≠ [] →
      ¬ (scroll_limit s + max_width s ≤ scroll_after s)
      ∧ (advance_cond s now = true ↔ 8 < now - s.state_start_time)) := by
  obtain ⟨h1, h2, h3, h4⟩ := reachable_inv hr
  have hglobal : s.scroll_position < scroll_limit s := by
    cases hst : s.display_state with
    | CELEBRATION =>
        rw [(h1 hst).1]
        exact scroll_limit_pos s
    | IDLE =>
        rw [h2 hst]
        exact scroll_limit_pos s
    | ORDER_INFO =>
        exact (h3 hst).2.2.1
  refine ⟨hglobal, fun hst hne => ?_⟩
  have hafter : scroll_after s < scroll_limit s := by
    unfold scroll_after
    by_cases hgt : 1 < s.screen_index
    · rw [if_pos hgt]
      exact Nat.mod_lt _ (scroll_limit_pos s)
    · rw [if_neg hgt]
      exact hglobal
  have hwidth : ¬ (scroll_limit s + max_width s ≤ scroll_after s) := by omega
  refine ⟨hwidth, ?_⟩
  unfold advance_cond
  simp only [Bool.or_eq_true, decide_eq_true_eq]
  exact ⟨fun h => h.resolve_right hwidth, Or.inl⟩

/-- Witness for C10 at the reachable scrolling state `s_idx2`, ticked at 22. -/
theorem C10_witness :
    advance_cond s_idx2 22 = true ↔ 8 < (22 : Int) - s_idx2.state_start_time :=
  ((C10_advance_only_on_timeout s_idx2 22
      (reachable_run reachable_s_celebration [4, 13, 22])).2 rfl (by decide)).2

end ShopifyPi
